import Mathlib

/-!
Shallow embedding of `src/python/MergeBAMBatch.py` (gatk-protected).

The script reads a manifest file; for each non-skipped line it builds a
Picard MergeSamFiles command for a date-stamped output path, conditionally
dispatches it through `farm_commands.cmd`, conditionally (re)dispatches an
`ln -s` command creating a stable alias, and calls `ValidateGATK.indexBAM`
on the alias.  We model the filesystem queries (`os.path.exists`,
`os.path.lexists`, `glob.glob`) as an abstract record and the observable
actions (prints, `farm_commands.cmd` calls, `indexBAM` calls) as an event
trace.
-/

namespace MergeBAMBatch

/-- Abstract filesystem oracle: `os.path.exists`, `os.path.lexists`,
`glob.glob` as seen by one run of the script. -/
structure FS where
  pathExists : String → Bool
  pathLexists : String → Bool
  glob : String → List String

/-- The second argument of `farm_commands.cmd`: the script passes either
`OPTIONS.farm_sub` (Python `None` or a queue-name string) for the merge
dispatch, or the literal `False` for the link dispatch. -/
inductive QueueArg where
  | qFalse : QueueArg
  | qNone : QueueArg
  | qStr : String → QueueArg
deriving DecidableEq, Repr

/-- Parsed command-line options (`--farm`, `--dir`,
`--ignoreExistingFiles`). -/
structure Options where
  farm_sub : Option String
  output_dir : String
  ignoreExistingFiles : Bool

/-- The value of `OPTIONS.farm_sub` as passed to `farm_commands.cmd`. -/
def Options.queueArg (o : Options) : QueueArg :=
  match o.farm_sub with
  | Option.none => QueueArg.qNone
  | Option.some s => QueueArg.qStr s

/-- Observable actions of the script: a line printed to stdout, a call of
`farm_commands.cmd(cmd, queue, log)`, a call of `ValidateGATK.indexBAM`. -/
inductive Event where
  | printLine : String → Event
  | farmCmd : String → QueueArg → String → Event
  | indexBAM : String → Event
deriving DecidableEq, Repr

/-- First character of a string equals `c` (Python `s.startswith(c)` for a
one-character `c`). -/
def strStarts (s : String) (c : Char) : Bool :=
  match s.data with
  | [] => false
  | a :: _ => a = c

/-- Last character of a string equals `c` (Python `s.endswith(c)` for a
one-character `c`). -/
def strEnds (s : String) (c : Char) : Bool :=
  match s.data.getLast? with
  | Option.none => false
  | Option.some a => a = c

/-- Python 2 `posixpath.join(a, b)`. -/
def osPathJoin (a b : String) : String :=
  if strStarts b '/' then b
  else if a = "" || strEnds a '/' then a ++ b
  else a ++ "/" ++ b

/-- Python whitespace as recognised by `str.split()` with no argument. -/
def isPySpace (c : Char) : Bool :=
  c = ' ' || c = '\t' || c = '\n' || c = '\r' || c = '\x0b' || c = '\x0c'

/-- Helper for `pySplit`: walk the characters, accumulating the current
field in reverse; whitespace ends the field (empty fields are dropped). -/
def pySplitAux : List Char → List Char → List String
  | [], acc => if acc = [] then [] else [String.mk acc.reverse]
  | c :: cs, acc =>
    if isPySpace c then
      (if acc = [] then [] else [String.mk acc.reverse]) ++ pySplitAux cs []
    else pySplitAux cs (c :: acc)

/-- Python `line.split()`: split on runs of whitespace, dropping empty
fields. -/
def pySplit (s : String) : List String :=
  pySplitAux s.data []

/-- Decimal rendering of `n` left-padded with zeros to width `w`
(the `%0wd` conversions inside `date.isoformat`). -/
def natPad (w n : Nat) : String :=
  String.mk (List.replicate (w - (toString n).length) '0') ++ toString n

/-- A Python `datetime.date` value. -/
structure PyDate where
  year : Nat
  month : Nat
  day : Nat
deriving DecidableEq, Repr

/-- `date.isoformat()`: `"%04d-%02d-%02d" % (year, month, day)`. -/
def PyDate.isoformat (d : PyDate) : String :=
  natPad 4 d.year ++ "-" ++ natPad 2 d.month ++ "-" ++ natPad 2 d.day

/-- `MERGE_BIN` constant of the script. -/
def MERGE_BIN : String := "/seq/software/picard/current/bin/MergeSamFiles.jar"

/-- `bam_ext` constant of the script. -/
def bam_ext : String := ".bam"

/-- `output = os.path.join(directory, merged_filename + '.stdout')`. -/
def output (opts : Options) (merged_filename : String) : String :=
  osPathJoin opts.output_dir (merged_filename ++ ".stdout")

/-- `current_link = os.path.join(directory, merged_filename + bam_ext)`. -/
def current_link (opts : Options) (merged_filename : String) : String :=
  osPathJoin opts.output_dir (merged_filename ++ bam_ext)

/-- `stamped_filename = os.path.join(directory, merged_filename + '_' +
time_stamp + bam_ext)`. -/
def stamped_filename (opts : Options) (time_stamp merged_filename : String) : String :=
  osPathJoin opts.output_dir (merged_filename ++ "_" ++ time_stamp ++ bam_ext)

/-- `sources = reduce(operator.__add__, map(glob.glob, s[1:]), [])`. -/
def sources (fs : FS) (patterns : List String) : List String :=
  (patterns.map fs.glob).foldl (fun a b => a ++ b) []

/-- The merge command string built at line 44 of the script. -/
def mergeCmd (stamped : String) (srcs : List String) : String :=
  "java -Xmx4096m -jar " ++ MERGE_BIN ++ " AS=true O=" ++ stamped ++
    " VALIDATION_STRINGENCY=SILENT " ++ " I=" ++ String.intercalate " I=" srcs

/-- Python `str(b)` for a boolean. -/
def pyBoolStr (b : Bool) : String := if b then "True" else "False"

/-- The `ln -s` command string built at line 50 of the script. -/
def linkCmd (stamped link : String) : String :=
  "ln -s " ++ stamped ++ " " ++ link

/-- Events produced by the body of the manifest loop for a line whose split
is `merged_filename :: patterns` with `merged_filename ≠ "#"`
(lines 37–52 of the script). -/
def lineEvents (fs : FS) (opts : Options) (time_stamp merged_filename : String)
    (patterns : List String) : List Event :=
  let out := output opts merged_filename
  let link := current_link opts merged_filename
  let stamped := stamped_filename opts time_stamp merged_filename
  let srcs := sources fs patterns
  (if opts.ignoreExistingFiles || !fs.pathExists stamped then
      [Event.printLine (mergeCmd stamped srcs),
       Event.farmCmd (mergeCmd stamped srcs) opts.queueArg out]
    else []) ++
  (if opts.ignoreExistingFiles || !fs.pathLexists link then
      [Event.printLine ("os.path.exists(current_link) " ++ pyBoolStr (fs.pathExists link)),
       Event.farmCmd (linkCmd stamped link) QueueArg.qFalse "",
       Event.indexBAM link]
    else [])

/-- One iteration of the manifest loop (lines 34–52): split the line, skip
it when the split is empty or its first token is exactly `"#"`, otherwise
run the body. -/
def processLine (fs : FS) (opts : Options) (time_stamp line : String) : List Event :=
  match pySplit line with
  | [] => []
  | s0 :: rest => if s0 = "#" then [] else lineEvents fs opts time_stamp s0 rest

/-- The whole manifest loop over the file's lines, with the single
`time_stamp` computed before the loop. -/
def runManifest (fs : FS) (opts : Options) (time_stamp : String)
    (lines : List String) : List Event :=
  (lines.map (processLine fs opts time_stamp)).flatten

/-- Outcome of `parser.error`: optparse prints the usage text and the
message and exits with the given status. -/
structure UsageExit where
  usageText : String
  message : String
  exitCode : Nat
deriving DecidableEq, Repr

/-- The `__main__` block after option parsing: `args` are the positional
arguments, `fileLines` models reading the manifest file.  `parser.error`
exits with status 2 before any line is processed. -/
def mainRun (fs : FS) (opts : Options) (today : PyDate) (args : List String)
    (fileLines : String → List String) : Except UsageExit (List Event) :=
  if args.length ≠ 1 then
    Except.error { usageText := "usage: %prog [options]",
                   message := "incorrect number of arguments", exitCode := 2 }
  else
    Except.ok (runManifest fs opts today.isoformat (fileLines (args.headD "")))

/-- The sub-list of indexing calls in a trace. -/
def indexCalls (ev : List Event) : List Event :=
  ev.filter fun e =>
    match e with
    | Event.indexBAM _ => true
    | _ => false

/-- Fixture: a filesystem with no existing files, no existing links and no
glob matches. -/
def fsEmpty : FS :=
  { pathExists := fun _ => false, pathLexists := fun _ => false, glob := fun _ => [] }

/-- Fixture: a filesystem on which every path exists (also as a link) and
two patterns have matches. -/
def fsFull : FS :=
  { pathExists := fun _ => true, pathLexists := fun _ => true,
    glob := fun p =>
      if p = "a_*.bam" then ["a_1.bam", "a_2.bam"]
      else if p = "b_*.bam" then ["b_1.bam"] else [] }

/-- Fixture: no farm queue, output directory `/out`, existing files kept. -/
def optsKeep : Options :=
  { farm_sub := Option.none, output_dir := "/out", ignoreExistingFiles := false }

/-- Fixture: no farm queue, output directory `/out`, existing files
ignored. -/
def optsIgnore : Options :=
  { farm_sub := Option.none, output_dir := "/out", ignoreExistingFiles := true }

theorem queueArg_ne_qFalse (o : Options) : o.queueArg ≠ QueueArg.qFalse := by
  unfold Options.queueArg
  cases o.farm_sub <;> simp

theorem qFalse_ne_queueArg (o : Options) : QueueArg.qFalse ≠ o.queueArg :=
  fun h => queueArg_ne_qFalse o h.symm

theorem processLine_cons (fs : FS) (opts : Options) (ts line name : String)
    (pats : List String) (h : pySplit line = name :: pats) (hn : name ≠ "#") :
    processLine fs opts ts line = lineEvents fs opts ts name pats := by
  unfold processLine
  rw [h]
  simp [hn]

theorem foldl_append_eq_flatten {α : Type} :
    ∀ (L : List (List α)) (acc : List α),
      L.foldl (fun a b => a ++ b) acc = acc ++ L.flatten := by
  intro L
  induction L with
  | nil => intro acc; simp
  | cons x xs ih => intro acc; simp [List.foldl_cons, ih, List.append_assoc]

theorem sources_eq_flatten (fs : FS) (pats : List String) :
    sources fs pats = (pats.map fs.glob).flatten := by
  unfold sources
  rw [foldl_append_eq_flatten]
  simp

theorem merge_mem_iff (fs : FS) (opts : Options) (ts line name : String)
    (pats : List String) (h : pySplit line = name :: pats) (hn : name ≠ "#") :
    Event.farmCmd (mergeCmd (stamped_filename opts ts name) (sources fs pats))
        opts.queueArg (output opts name) ∈ processLine fs opts ts line
      ↔ (opts.ignoreExistingFiles = true
          ∨ fs.pathExists (stamped_filename opts ts name) = false) := by
  rw [processLine_cons fs opts ts line name pats h hn]
  unfold lineEvents
  cases hig : opts.ignoreExistingFiles <;>
    cases hex : fs.pathExists (stamped_filename opts ts name) <;>
      cases hlex : fs.pathLexists (current_link opts name) <;>
        simp [hig, hex, hlex, queueArg_ne_qFalse]

theorem link_mem_iff (fs : FS) (opts : Options) (ts line name : String)
    (pats : List String) (h : pySplit line = name :: pats) (hn : name ≠ "#") :
    Event.farmCmd (linkCmd (stamped_filename opts ts name) (current_link opts name))
        QueueArg.qFalse "" ∈ processLine fs opts ts line
      ↔ (opts.ignoreExistingFiles = true
          ∨ fs.pathLexists (current_link opts name) = false) := by
  rw [processLine_cons fs opts ts line name pats h hn]
  unfold lineEvents
  cases hig : opts.ignoreExistingFiles <;>
    cases hex : fs.pathExists (stamped_filename opts ts name) <;>
      cases hlex : fs.pathLexists (current_link opts name) <;>
        simp [hig, hex, hlex, qFalse_ne_queueArg]

theorem indexCalls_processLine (fs : FS) (opts : Options) (ts line name : String)
    (pats : List String) (h : pySplit line = name :: pats) (hn : name ≠ "#") :
    indexCalls (processLine fs opts ts line)
      = if opts.ignoreExistingFiles || !fs.pathLexists (current_link opts name) then
          [Event.indexBAM (current_link opts name)]
        else [] := by
  rw [processLine_cons fs opts ts line name pats h hn]
  unfold lineEvents indexCalls
  cases hig : opts.ignoreExistingFiles <;>
    cases hex : fs.pathExists (stamped_filename opts ts name) <;>
      cases hlex : fs.pathLexists (current_link opts name) <;>
        simp [hig, hex, hlex, List.filter]

theorem link_block_suffix (fs : FS) (opts : Options) (ts line name : String)
    (pats : List String) (h : pySplit line = name :: pats) (hn : name ≠ "#")
    (hcond : opts.ignoreExistingFiles = true
      ∨ fs.pathLexists (current_link opts name) = false) :
    ∃ pre, processLine fs opts ts line
      = pre ++
        [Event.printLine ("os.path.exists(current_link) "
            ++ pyBoolStr (fs.pathExists (current_link opts name))),
         Event.farmCmd (linkCmd (stamped_filename opts ts name) (current_link opts name))
            QueueArg.qFalse "",
         Event.indexBAM (current_link opts name)] := by
  rw [processLine_cons fs opts ts line name pats h hn]
  have hc : (opts.ignoreExistingFiles || !fs.pathLexists (current_link opts name)) = true := by
    rcases hcond with h1 | h1 <;> simp [h1]
  refine ⟨(if (opts.ignoreExistingFiles
        || !fs.pathExists (stamped_filename opts ts name)) = true then
      [Event.printLine (mergeCmd (stamped_filename opts ts name) (sources fs pats)),
       Event.farmCmd (mergeCmd (stamped_filename opts ts name) (sources fs pats))
         opts.queueArg (output opts name)]
    else []), ?_⟩
  unfold lineEvents
  simp [hc]

theorem indexBAM_mem_iff (fs : FS) (opts : Options) (ts line name p : String)
    (pats : List String) (h : pySplit line = name :: pats) (hn : name ≠ "#") :
    Event.indexBAM p ∈ processLine fs opts ts line
      ↔ (p = current_link opts name
          ∧ (opts.ignoreExistingFiles = true
              ∨ fs.pathLexists (current_link opts name) = false)) := by
  rw [processLine_cons fs opts ts line name pats h hn]
  unfold lineEvents
  cases hig : opts.ignoreExistingFiles <;>
    cases hex : fs.pathExists (stamped_filename opts ts name) <;>
      cases hlex : fs.pathLexists (current_link opts name) <;>
        simp [hig, hex, hlex, eq_comm]

theorem sources_eq_nil (fs : FS) (pats : List String)
    (hglob : ∀ p ∈ pats, fs.glob p = []) : sources fs pats = [] := by
  rw [sources_eq_flatten]
  apply List.flatten_eq_nil_iff.mpr
  intro l hl
  rcases List.mem_map.mp hl with ⟨p, hp, hpe⟩
  rw [← hpe]
  exact hglob p hp

theorem sources_drop_empty (fs : FS) (p : String) (xs ys : List String)
    (hp : fs.glob p = []) :
    sources fs (xs ++ p :: ys) = sources fs (xs ++ ys) := by
  rw [sources_eq_flatten, sources_eq_flatten]
  simp [hp]

theorem str_append_right_cancel (a b c : String) (h : a ++ c = b ++ c) : a = b := by
  apply String.ext
  have hd := congrArg String.data h
  rw [String.data_append, String.data_append] at hd
  exact List.append_cancel_right hd

theorem str_append_left_cancel (a b c : String) (h : a ++ b = a ++ c) : b = c := by
  apply String.ext
  have hd := congrArg String.data h
  rw [String.data_append, String.data_append] at hd
  exact List.append_cancel_left hd

theorem strStarts_append_left (p x : String) (c : Char) (hp : p.data ≠ []) :
    strStarts (p ++ x) c = strStarts p c := by
  unfold strStarts
  rw [String.data_append]
  cases hpd : p.data with
  | nil => exact absurd hpd hp
  | cons a as => simp

theorem osPathJoin_right_inj (a b1 b2 : String)
    (hs : strStarts b1 '/' = strStarts b2 '/')
    (heq : osPathJoin a b1 = osPathJoin a b2) : b1 = b2 := by
  unfold osPathJoin at heq
  rw [← hs] at heq
  cases hb : strStarts b1 '/' with
  | true => simpa [hb] using heq
  | false =>
    rw [hb] at heq
    simp only [Bool.false_eq_true, if_false] at heq
    by_cases h2 : (a = "" || strEnds a '/') = true
    · rw [if_pos h2, if_pos h2] at heq
      exact str_append_left_cancel a b1 b2 heq
    · rw [if_neg h2, if_neg h2] at heq
      exact str_append_left_cancel (a ++ "/") b1 b2 heq

theorem stamped_filename_inj (opts : Options) (name t1 t2 : String)
    (hne : t1 ≠ t2) :
    stamped_filename opts t1 name ≠ stamped_filename opts t2 name := by
  intro heq
  unfold stamped_filename at heq
  have hp : (name ++ "_").data ≠ [] := by
    rw [String.data_append]
    simp [show ("_" : String).data = ['_'] from rfl]
  have hassoc : ∀ t : String,
      name ++ "_" ++ t ++ bam_ext = (name ++ "_") ++ (t ++ bam_ext) := by
    intro t
    rw [String.append_assoc]
  have hs : strStarts (name ++ "_" ++ t1 ++ bam_ext) '/'
      = strStarts (name ++ "_" ++ t2 ++ bam_ext) '/' := by
    rw [hassoc t1, hassoc t2, strStarts_append_left _ _ _ hp,
      strStarts_append_left _ _ _ hp]
  have hb := osPathJoin_right_inj opts.output_dir _ _ hs heq
  have h2 := str_append_right_cancel _ _ _ hb
  exact hne (str_append_left_cancel _ _ _ h2)

theorem mem_runManifest (fs : FS) (opts : Options) (ts : String)
    (lines : List String) (l : String) (e : Event)
    (hl : l ∈ lines) (he : e ∈ processLine fs opts ts l) :
    e ∈ runManifest fs opts ts lines := by
  unfold runManifest
  exact List.mem_flatten.mpr ⟨_, List.mem_map_of_mem _ hl, he⟩

/-- Claim C1 counterexample: the manifest line `"#foo x.bam"` begins with
`#`, yet the loop does NOT ignore it — with `ignoreExistingFiles` set it
produces events, because the skip test compares the first token with the
exact string `"#"`, not with a `#` character at the start of the line. -/
theorem claim_c1_counterexample :
    processLine fsEmpty optsIgnore "2024-01-01" "#foo x.bam" ≠ [] := by decide

/-- Claim C1 (amended): a manifest line that is blank after whitespace
split, or whose first token is exactly `#`, is ignored: it produces no
events at all — no merge command, no link command, no indexing call. -/
theorem claim_c1 (fs : FS) (opts : Options) (ts line : String)
    (h : pySplit line = [] ∨ (pySplit line).head? = Option.some "#") :
    processLine fs opts ts line = [] := by
  rcases h with h | h
  · unfold processLine
    rw [h]
  · cases hs : pySplit line with
    | nil =>
      unfold processLine
      rw [hs]
    | cons s0 rest =>
      rw [hs] at h
      simp only [List.head?_cons, Option.some.injEq] at h
      unfold processLine
      rw [hs]
      simp [h]

/-- Claim C1 witness: the comment line `"# x.bam"` (first token exactly
`#`) produces no events. -/
theorem claim_c1_witness :
    processLine fsEmpty optsIgnore "2024-01-01" "# x.bam" = [] :=
  claim_c1 fsEmpty optsIgnore "2024-01-01" "# x.bam" (Or.inr (by decide))

/-- Claim C2: for every processed manifest line, the merge command is
dispatched through `farm_commands.cmd` if and only if `ignoreExistingFiles`
is set or the stamped output path does not already exist. -/
theorem claim_c2 (fs : FS) (opts : Options) (ts line name : String)
    (pats : List String) (h : pySplit line = name :: pats) (hn : name ≠ "#") :
    Event.farmCmd (mergeCmd (stamped_filename opts ts name) (sources fs pats))
        opts.queueArg (output opts name) ∈ processLine fs opts ts line
      ↔ (opts.ignoreExistingFiles = true
          ∨ fs.pathExists (stamped_filename opts ts name) = false) :=
  merge_mem_iff fs opts ts line name pats h hn

/-- Claim C2 witness: with `ignoreExistingFiles` and a filesystem on which
every path already exists, the merge is still dispatched. -/
theorem claim_c2_witness :
    Event.farmCmd
        (mergeCmd (stamped_filename optsIgnore "2024-01-01" "sampleA")
          (sources fsFull ["a_*.bam"]))
        optsIgnore.queueArg (output optsIgnore "sampleA")
      ∈ processLine fsFull optsIgnore "2024-01-01" "sampleA a_*.bam" :=
  (claim_c2 fsFull optsIgnore "2024-01-01" "sampleA a_*.bam" "sampleA" ["a_*.bam"]
    (by decide) (by decide)).mpr (Or.inl rfl)

/-- Claim C3: for a processed manifest line the stamped output path equals
the output directory joined with `<name>_<YYYY-MM-DD>.bam`, the date being
the run's start date rendered `%04d-%02d-%02d` (ISO 8601); that path is
the `O=` target of the dispatched merge command. -/
theorem claim_c3 (fs : FS) (opts : Options) (today : PyDate)
    (line name : String) (pats : List String)
    (h : pySplit line = name :: pats) (hn : name ≠ "#")
    (hfire : opts.ignoreExistingFiles = true
      ∨ fs.pathExists (stamped_filename opts today.isoformat name) = false) :
    stamped_filename opts today.isoformat name
        = osPathJoin opts.output_dir
            (name ++ "_"
              ++ (natPad 4 today.year ++ "-" ++ natPad 2 today.month ++ "-"
                    ++ natPad 2 today.day)
              ++ ".bam")
    ∧ Event.farmCmd
        (mergeCmd (stamped_filename opts today.isoformat name) (sources fs pats))
        opts.queueArg (output opts name)
      ∈ processLine fs opts today.isoformat line :=
  ⟨rfl, (merge_mem_iff fs opts today.isoformat line name pats h hn).mpr hfire⟩

/-- Claim C3 witness: run date 2024-01-01, output directory `/out`, line
`sampleA a_*.bam`, no existing files. -/
theorem claim_c3_witness :
    stamped_filename optsKeep (PyDate.mk 2024 1 1).isoformat "sampleA"
        = osPathJoin optsKeep.output_dir
            ("sampleA" ++ "_"
              ++ (natPad 4 (PyDate.mk 2024 1 1).year ++ "-"
                    ++ natPad 2 (PyDate.mk 2024 1 1).month ++ "-"
                    ++ natPad 2 (PyDate.mk 2024 1 1).day)
              ++ ".bam")
    ∧ Event.farmCmd
        (mergeCmd (stamped_filename optsKeep (PyDate.mk 2024 1 1).isoformat "sampleA")
          (sources fsEmpty ["a_*.bam"]))
        optsKeep.queueArg (output optsKeep "sampleA")
      ∈ processLine fsEmpty optsKeep (PyDate.mk 2024 1 1).isoformat "sampleA a_*.bam" :=
  claim_c3 fsEmpty optsKeep (PyDate.mk 2024 1 1) "sampleA a_*.bam" "sampleA"
    ["a_*.bam"] (by decide) (by decide) (Or.inr rfl)

/-- Claim C4: the link branch fires iff `ignoreExistingFiles` is set or
`os.path.lexists` on the stable link is false (a dangling link counts as
existing); when it fires, the `ln -s` command is dispatched with queue id
`False` — never through the job queue — and the trace's indexing calls are
exactly one `indexBAM` on the stable link path, placed right after it. -/
theorem claim_c4 (fs : FS) (opts : Options) (ts line name : String)
    (pats : List String) (h : pySplit line = name :: pats) (hn : name ≠ "#") :
    (Event.farmCmd (linkCmd (stamped_filename opts ts name) (current_link opts name))
        QueueArg.qFalse "" ∈ processLine fs opts ts line
      ↔ (opts.ignoreExistingFiles = true
          ∨ fs.pathLexists (current_link opts name) = false))
    ∧ indexCalls (processLine fs opts ts line)
        = (if opts.ignoreExistingFiles || !fs.pathLexists (current_link opts name) then
            [Event.indexBAM (current_link opts name)]
          else [])
    ∧ ((opts.ignoreExistingFiles = true
          ∨ fs.pathLexists (current_link opts name) = false) →
        ∃ pre, processLine fs opts ts line
          = pre ++
            [Event.printLine ("os.path.exists(current_link) "
                ++ pyBoolStr (fs.pathExists (current_link opts name))),
             Event.farmCmd (linkCmd (stamped_filename opts ts name)
                (current_link opts name)) QueueArg.qFalse "",
             Event.indexBAM (current_link opts name)]) :=
  ⟨link_mem_iff fs opts ts line name pats h hn,
    indexCalls_processLine fs opts ts line name pats h hn,
    fun hc => link_block_suffix fs opts ts line name pats h hn hc⟩

/-- Claim C4 witness: line `sampleA a_*.bam` on an empty filesystem with
default options. -/
theorem claim_c4_witness :
    (Event.farmCmd
        (linkCmd (stamped_filename optsKeep "2024-01-01" "sampleA")
          (current_link optsKeep "sampleA"))
        QueueArg.qFalse "" ∈ processLine fsEmpty optsKeep "2024-01-01" "sampleA a_*.bam"
      ↔ (optsKeep.ignoreExistingFiles = true
          ∨ fsEmpty.pathLexists (current_link optsKeep "sampleA") = false))
    ∧ indexCalls (processLine fsEmpty optsKeep "2024-01-01" "sampleA a_*.bam")
        = (if optsKeep.ignoreExistingFiles
              || !fsEmpty.pathLexists (current_link optsKeep "sampleA") then
            [Event.indexBAM (current_link optsKeep "sampleA")]
          else [])
    ∧ ((optsKeep.ignoreExistingFiles = true
          ∨ fsEmpty.pathLexists (current_link optsKeep "sampleA") = false) →
        ∃ pre, processLine fsEmpty optsKeep "2024-01-01" "sampleA a_*.bam"
          = pre ++
            [Event.printLine ("os.path.exists(current_link) "
                ++ pyBoolStr (fsEmpty.pathExists (current_link optsKeep "sampleA"))),
             Event.farmCmd (linkCmd (stamped_filename optsKeep "2024-01-01" "sampleA")
                (current_link optsKeep "sampleA")) QueueArg.qFalse "",
             Event.indexBAM (current_link optsKeep "sampleA")]) :=
  claim_c4 fsEmpty optsKeep "2024-01-01" "sampleA a_*.bam" "sampleA" ["a_*.bam"]
    (by decide) (by decide)

/-- Claim C5: whenever the link branch fires — in particular when
`ignoreExistingFiles` is true while the stable link already exists — the
command dispatched (directly, queue id `False`) is exactly
`ln -s <stamped> <link>`, aliasing the stable link path to the current
run's stamped path. -/
theorem claim_c5 (fs : FS) (opts : Options) (ts line name : String)
    (pats : List String) (h : pySplit line = name :: pats) (hn : name ≠ "#")
    (hcond : opts.ignoreExistingFiles = true
      ∨ fs.pathLexists (current_link opts name) = false) :
    Event.farmCmd (linkCmd (stamped_filename opts ts name) (current_link opts name))
        QueueArg.qFalse "" ∈ processLine fs opts ts line
    ∧ linkCmd (stamped_filename opts ts name) (current_link opts name)
        = "ln -s " ++ stamped_filename opts ts name ++ " " ++ current_link opts name :=
  ⟨(link_mem_iff fs opts ts line name pats h hn).mpr hcond, rfl⟩

/-- Claim C5 witness: `ignoreExistingFiles` is set and the stable link
exists on `fsFull`; the `ln -s` command pointing the stable link at the
current stamped path is still dispatched. -/
theorem claim_c5_witness :
    Event.farmCmd
        (linkCmd (stamped_filename optsIgnore "2024-01-01" "sampleA")
          (current_link optsIgnore "sampleA"))
        QueueArg.qFalse "" ∈ processLine fsFull optsIgnore "2024-01-01" "sampleA a_*.bam"
    ∧ linkCmd (stamped_filename optsIgnore "2024-01-01" "sampleA")
          (current_link optsIgnore "sampleA")
        = "ln -s " ++ stamped_filename optsIgnore "2024-01-01" "sampleA" ++ " "
            ++ current_link optsIgnore "sampleA" :=
  claim_c5 fsFull optsIgnore "2024-01-01" "sampleA a_*.bam" "sampleA" ["a_*.bam"]
    (by decide) (by decide) (Or.inl rfl)

/-- Claim C6: the resolved source list is the order-preserving
concatenation of the glob matches of the patterns, in pattern order; that
list, in that order, is interposed between the `I=` labels of the merge
command; a pattern with zero matches contributes zero entries (and the
construction is total — no error is raised); the command is the one whose
dispatch the merge condition governs. -/
theorem claim_c6 (fs : FS) (opts : Options) (ts line name : String)
    (pats : List String) (h : pySplit line = name :: pats) (hn : name ≠ "#") :
    sources fs pats = (pats.map fs.glob).flatten
    ∧ mergeCmd (stamped_filename opts ts name) (sources fs pats)
        = "java -Xmx4096m -jar " ++ MERGE_BIN ++ " AS=true O="
            ++ stamped_filename opts ts name ++ " VALIDATION_STRINGENCY=SILENT "
            ++ " I=" ++ String.intercalate " I=" ((pats.map fs.glob).flatten)
    ∧ (∀ p xs ys, fs.glob p = [] →
        sources fs (xs ++ p :: ys) = sources fs (xs ++ ys))
    ∧ ((opts.ignoreExistingFiles = true
          ∨ fs.pathExists (stamped_filename opts ts name) = false) →
        Event.farmCmd (mergeCmd (stamped_filename opts ts name) (sources fs pats))
          opts.queueArg (output opts name) ∈ processLine fs opts ts line) := by
  refine ⟨sources_eq_flatten fs pats, ?_,
    fun p xs ys hp => sources_drop_empty fs p xs ys hp,
    fun hf => (merge_mem_iff fs opts ts line name pats h hn).mpr hf⟩
  rw [sources_eq_flatten]
  rfl

/-- Claim C6 witness: two patterns, one with two matches and one with one
match, on `fsFull`. -/
theorem claim_c6_witness :
    sources fsFull ["a_*.bam", "b_*.bam"]
        = ((["a_*.bam", "b_*.bam"].map fsFull.glob)).flatten
    ∧ mergeCmd (stamped_filename optsIgnore "2024-01-01" "sampleA")
          (sources fsFull ["a_*.bam", "b_*.bam"])
        = "java -Xmx4096m -jar " ++ MERGE_BIN ++ " AS=true O="
            ++ stamped_filename optsIgnore "2024-01-01" "sampleA"
            ++ " VALIDATION_STRINGENCY=SILENT "
            ++ " I=" ++ String.intercalate " I=" ((["a_*.bam", "b_*.bam"].map fsFull.glob).flatten)
    ∧ (∀ p xs ys, fsFull.glob p = [] →
        sources fsFull (xs ++ p :: ys) = sources fsFull (xs ++ ys))
    ∧ ((optsIgnore.ignoreExistingFiles = true
          ∨ fsFull.pathExists (stamped_filename optsIgnore "2024-01-01" "sampleA") = false) →
        Event.farmCmd
          (mergeCmd (stamped_filename optsIgnore "2024-01-01" "sampleA")
            (sources fsFull ["a_*.bam", "b_*.bam"]))
          optsIgnore.queueArg (output optsIgnore "sampleA")
          ∈ processLine fsFull optsIgnore "2024-01-01" "sampleA a_*.bam b_*.bam") :=
  claim_c6 fsFull optsIgnore "2024-01-01" "sampleA a_*.bam b_*.bam" "sampleA"
    ["a_*.bam", "b_*.bam"] (by decide) (by decide)

/-- Claim C7: one date value is shared across the whole run — a processed
line's merge dispatch inside `runManifest` uses the run-wide
`today.isoformat` in its stamped path — while the stable link path has no
date component: a line's indexing events are identical under any two time
stamps, and the stable link is `dir/name.bam`. -/
theorem claim_c7 (fs : FS) (opts : Options) (today : PyDate)
    (lines : List String) (l name p ts1 ts2 : String) (pats : List String)
    (hl : l ∈ lines) (h : pySplit l = name :: pats) (hn : name ≠ "#")
    (hfire : opts.ignoreExistingFiles = true
      ∨ fs.pathExists (stamped_filename opts today.isoformat name) = false) :
    Event.farmCmd (mergeCmd (stamped_filename opts today.isoformat name)
        (sources fs pats)) opts.queueArg (output opts name)
      ∈ runManifest fs opts today.isoformat lines
    ∧ (Event.indexBAM p ∈ processLine fs opts ts1 l
        ↔ Event.indexBAM p ∈ processLine fs opts ts2 l)
    ∧ current_link opts name = osPathJoin opts.output_dir (name ++ ".bam") :=
  ⟨mem_runManifest fs opts today.isoformat lines l _ hl
      ((merge_mem_iff fs opts today.isoformat l name pats h hn).mpr hfire),
    (indexBAM_mem_iff fs opts ts1 l name p pats h hn).trans
      (indexBAM_mem_iff fs opts ts2 l name p pats h hn).symm,
    rfl⟩

/-- Claim C7 witness: a one-line manifest, two different time stamps. -/
theorem claim_c7_witness :
    Event.farmCmd
        (mergeCmd (stamped_filename optsKeep (PyDate.mk 2024 1 1).isoformat "sampleA")
          (sources fsEmpty ["a_*.bam"]))
        optsKeep.queueArg (output optsKeep "sampleA")
      ∈ runManifest fsEmpty optsKeep (PyDate.mk 2024 1 1).isoformat ["sampleA a_*.bam"]
    ∧ (Event.indexBAM "/out/sampleA.bam"
          ∈ processLine fsEmpty optsKeep "2024-01-01" "sampleA a_*.bam"
        ↔ Event.indexBAM "/out/sampleA.bam"
          ∈ processLine fsEmpty optsKeep "2025-06-30" "sampleA a_*.bam")
    ∧ current_link optsKeep "sampleA"
        = osPathJoin optsKeep.output_dir ("sampleA" ++ ".bam") :=
  claim_c7 fsEmpty optsKeep (PyDate.mk 2024 1 1) ["sampleA a_*.bam"]
    "sampleA a_*.bam" "sampleA" "/out/sampleA.bam" "2024-01-01" "2025-06-30"
    ["a_*.bam"] (by decide) (by decide) (by decide) (Or.inr rfl)

/-- Claim C8: a positional-argument count different from one stops the
program at `parser.error`: the outcome is a usage exit carrying the usage
text and the non-zero status 2, and no manifest line is processed (no
event trace is produced). -/
theorem claim_c8 (fs : FS) (opts : Options) (today : PyDate)
    (args : List String) (fileLines : String → List String)
    (h : args.length ≠ 1) :
    ∃ u : UsageExit, mainRun fs opts today args fileLines = Except.error u
      ∧ u.exitCode ≠ 0
      ∧ u.usageText = "usage: %prog [options]"
      ∧ ∀ ev : List Event, mainRun fs opts today args fileLines ≠ Except.ok ev := by
  unfold mainRun
  rw [if_pos h]
  exact ⟨_, rfl, by decide, rfl, fun ev hcontra => by simp at hcontra⟩

/-- Claim C8 witness: zero positional arguments. -/
theorem claim_c8_witness :
    ∃ u : UsageExit,
      mainRun fsEmpty optsKeep (PyDate.mk 2024 1 1) [] (fun _ => [])
          = Except.error u
        ∧ u.exitCode ≠ 0
        ∧ u.usageText = "usage: %prog [options]"
        ∧ ∀ ev : List Event,
            mainRun fsEmpty optsKeep (PyDate.mk 2024 1 1) [] (fun _ => [])
              ≠ Except.ok ev :=
  claim_c8 fsEmpty optsKeep (PyDate.mk 2024 1 1) [] (fun _ => []) (by decide)

/-- Claim C9: a processed line whose every pattern matches nothing has an
empty resolved source list; processing is total — the merge command is
still built, it is dispatched when the merge condition fires, and its text
ends with a bare ` I=` carrying no file path. -/
theorem claim_c9 (fs : FS) (opts : Options) (ts line name : String)
    (pats : List String) (h : pySplit line = name :: pats) (hn : name ≠ "#")
    (hglob : ∀ p ∈ pats, fs.glob p = [])
    (hfire : opts.ignoreExistingFiles = true
      ∨ fs.pathExists (stamped_filename opts ts name) = false) :
    sources fs pats = []
    ∧ Event.farmCmd (mergeCmd (stamped_filename opts ts name) (sources fs pats))
        opts.queueArg (output opts name) ∈ processLine fs opts ts line
    ∧ ∃ t, mergeCmd (stamped_filename opts ts name) (sources fs pats)
        = t ++ " I=" := by
  have hnil := sources_eq_nil fs pats hglob
  refine ⟨hnil, (merge_mem_iff fs opts ts line name pats h hn).mpr hfire, ?_⟩
  rw [hnil]
  refine ⟨"java -Xmx4096m -jar " ++ MERGE_BIN ++ " AS=true O="
      ++ stamped_filename opts ts name ++ " VALIDATION_STRINGENCY=SILENT ", ?_⟩
  unfold mergeCmd
  rw [show String.intercalate " I=" ([] : List String) = "" from rfl,
    String.append_empty]

/-- Claim C9 witness: the line `sampleA c_*.bam` on a filesystem where the
pattern matches nothing. -/
theorem claim_c9_witness :
    sources fsEmpty ["c_*.bam"] = []
    ∧ Event.farmCmd
        (mergeCmd (stamped_filename optsKeep "2024-01-01" "sampleA")
          (sources fsEmpty ["c_*.bam"]))
        optsKeep.queueArg (output optsKeep "sampleA")
      ∈ processLine fsEmpty optsKeep "2024-01-01" "sampleA c_*.bam"
    ∧ ∃ t, mergeCmd (stamped_filename optsKeep "2024-01-01" "sampleA")
        (sources fsEmpty ["c_*.bam"]) = t ++ " I=" :=
  claim_c9 fsEmpty optsKeep "2024-01-01" "sampleA c_*.bam" "sampleA" ["c_*.bam"]
    (by decide) (by decide) (by decide) (Or.inr rfl)

/-- Claim C10: merge logs go to `dir/name.stdout` with no date component —
runs on two different dates dispatch their merge commands with the SAME
log path — even though the two runs' stamped output paths differ. -/
theorem claim_c10 (fs : FS) (opts : Options) (d1 d2 : PyDate)
    (line name : String) (pats : List String)
    (h : pySplit line = name :: pats) (hn : name ≠ "#")
    (hne : d1.isoformat ≠ d2.isoformat)
    (hfire1 : opts.ignoreExistingFiles = true
      ∨ fs.pathExists (stamped_filename opts d1.isoformat name) = false)
    (hfire2 : opts.ignoreExistingFiles = true
      ∨ fs.pathExists (stamped_filename opts d2.isoformat name) = false) :
    output opts name = osPathJoin opts.output_dir (name ++ ".stdout")
    ∧ Event.farmCmd
        (mergeCmd (stamped_filename opts d1.isoformat name) (sources fs pats))
        opts.queueArg (output opts name) ∈ processLine fs opts d1.isoformat line
    ∧ Event.farmCmd
        (mergeCmd (stamped_filename opts d2.isoformat name) (sources fs pats))
        opts.queueArg (output opts name) ∈ processLine fs opts d2.isoformat line
    ∧ stamped_filename opts d1.isoformat name
        ≠ stamped_filename opts d2.isoformat name :=
  ⟨rfl,
    (merge_mem_iff fs opts d1.isoformat line name pats h hn).mpr hfire1,
    (merge_mem_iff fs opts d2.isoformat line name pats h hn).mpr hfire2,
    stamped_filename_inj opts name _ _ hne⟩

/-- Claim C10 witness: the runs of 2024-01-01 and 2024-01-02 share the log
path but have distinct stamped output paths. -/
theorem claim_c10_witness :
    output optsKeep "sampleA" = osPathJoin optsKeep.output_dir ("sampleA" ++ ".stdout")
    ∧ Event.farmCmd
        (mergeCmd (stamped_filename optsKeep (PyDate.mk 2024 1 1).isoformat "sampleA")
          (sources fsEmpty ["a_*.bam"]))
        optsKeep.queueArg (output optsKeep "sampleA")
      ∈ processLine fsEmpty optsKeep (PyDate.mk 2024 1 1).isoformat "sampleA a_*.bam"
    ∧ Event.farmCmd
        (mergeCmd (stamped_filename optsKeep (PyDate.mk 2024 1 2).isoformat "sampleA")
          (sources fsEmpty ["a_*.bam"]))
        optsKeep.queueArg (output optsKeep "sampleA")
      ∈ processLine fsEmpty optsKeep (PyDate.mk 2024 1 2).isoformat "sampleA a_*.bam"
    ∧ stamped_filename optsKeep (PyDate.mk 2024 1 1).isoformat "sampleA"
        ≠ stamped_filename optsKeep (PyDate.mk 2024 1 2).isoformat "sampleA" :=
  claim_c10 fsEmpty optsKeep (PyDate.mk 2024 1 1) (PyDate.mk 2024 1 2)
    "sampleA a_*.bam" "sampleA" ["a_*.bam"] (by decide) (by decide) (by decide)
    (Or.inr rfl) (Or.inr rfl)

end MergeBAMBatch
